import Mathlib

/-!
Verification of the `gdal_proximity.py` and `vec_tr.py` utilities.

This development gives a shallow embedding of the two Python scripts
`osgeo_utils/gdal_proximity.py` and `osgeo_utils/samples/vec_tr.py`, and of
the multi-source raster proximity engine that the design document specifies
for `gdal.ComputeProximity` (whose implementation lives outside this
repository).

Modelling conventions:
- Python numeric values (GDAL cell values and OGR coordinates are doubles)
  are modelled with exact integers `ℤ`; no floating-point rounding is
  modelled.
- Calls into the external GDAL/OGR library are modelled by "world" records
  of abstract functions; an `Option` result with `none` stands for a call
  that fails (returns `None`, or raises, as noted at each field).
- An uncaught Python exception is a distinguished outcome (`pyError`,
  `indexError`, ...) of the modelled function.
-/

namespace VecTr

/-- A vertex, as read by `geom.GetX(i), geom.GetY(i), geom.GetZ(i)`. -/
abbrev Point := ℤ × ℤ × ℤ

/-- An OGR geometry as seen by `vec_tr.py`: it has a list of sub-geometries
(`GetGeometryCount`/`GetGeometryRef`) and a list of points
(`GetPointCount`/`GetX`/`GetY`/`GetZ`/`SetPoint`). -/
inductive Geometry where
  | geom (subs : List Geometry) (pts : List Point)

/-- `TransformPoint` from `vec_tr.py` lines 21-29: shifts x by 1000. -/
def TransformPoint (xyz : Point) : Point :=
  let x := xyz.1
  let y := xyz.2.1
  let z := xyz.2.2
  (x + 1000, y, z)

/-- `WalkAndTransform` from `vec_tr.py` lines 35-52.  If the geometry has
sub-geometries, each is walked recursively and written back; otherwise every
point is transformed with `TransformPoint` and written back via `SetPoint`. -/
def WalkAndTransform : Geometry → Geometry
  | .geom subs pts =>
    if subs.length > 0 then
      .geom (subs.attach.map fun s => WalkAndTransform s.1) pts
    else
      .geom subs (pts.map TransformPoint)
termination_by g => sizeOf g
decreasing_by
  have := List.sizeOf_lt_of_mem s.2
  simp only [Geometry.geom.sizeOf_spec]
  omega

/-- The vertices of all leaf geometries (geometries with no sub-geometries)
of a geometry tree, in traversal order.  These are exactly the points that
the `SetPoint` loop of `WalkAndTransform` touches. -/
def leafPoints : Geometry → List Point
  | .geom subs pts =>
    if subs.length > 0 then subs.attach.flatMap (fun s => leafPoints s.1) else pts
termination_by g => sizeOf g
decreasing_by
  have := List.sizeOf_lt_of_mem s.2
  simp only [Geometry.geom.sizeOf_spec]
  omega

/-- The structural skeleton of a geometry: sub-geometry nesting and the
point count of every node, with the coordinate data erased. -/
inductive GeomShape where
  | node (subs : List GeomShape) (npts : ℕ)

/-- Computes the skeleton of a geometry. -/
def skeleton : Geometry → GeomShape
  | .geom subs pts => .node (subs.attach.map fun s => skeleton s.1) pts.length
termination_by g => sizeOf g
decreasing_by
  have := List.sizeOf_lt_of_mem s.2
  simp only [Geometry.geom.sizeOf_spec]
  omega

/-- An input feature: its attribute fields (copied by `SetFrom`) and its
geometry (`GetGeometryRef`). -/
structure Feature where
  fields : List String
  geom : Geometry

/-- An input layer: name, field count of its definition, and its features in
`GetNextFeature` order. -/
structure VLayer where
  name : String
  fieldCount : ℕ
  features : List Feature

/-- An input datasource: its layers in index order (`GetLayer(0)` is the
head; `GetLayerByName` searches by name). -/
structure VDataSource where
  layers : List VLayer

/-- External OGR behaviour for one run of `vec_tr.py`. -/
structure VWorld where
  /-- `ogr.Open(infile, update=0)`: `none` models a failed open (returns
  `None`). -/
  openInput : String → Option VDataSource
  /-- whether `ogr.GetDriverByName("ESRI Shapefile")` yields a driver. -/
  hasShpDriver : Bool
  /-- `shp_driver.CreateDataSource(outfile)`: `none` models `None`. -/
  createDataSource : String → Option Unit
  /-- whether `shp_ds.CreateLayer(...)` yields a layer (not `None`). -/
  createLayerOk : Bool

/-- Observable calls made by `vec_tr.py` into the OGR library, in program
order. -/
inductive VEvent where
  | openInput (f : String)
  | deleteDataSource (f : String)
  | createDataSource (f : String)
  | createLayer (name : String)
  | createFeature (idx : ℕ) (g : Geometry)

/-- Outcome of a run of `vec_tr.main`. -/
inductive VOut where
  /-- an explicit `return code` (`Usage()` returns 2, the end returns 0). -/
  | ret (code : ℤ)
  /-- an uncaught Python exception. -/
  | pyError

/-- Argument parsing of `vec_tr.main` (lines 64-83): the first three
positional arguments are infile, outfile and layer name; a fourth argument
or a missing outfile yields `Usage()` = 2. -/
def vecTrParse (args : List String) : Except ℤ (String × String × Option String) :=
  match args with
  | [] => .error 2
  | [_] => .error 2
  | [a, b] => .ok (a, b, none)
  | [a, b, c] => .ok (a, b, some c)
  | _ => .error 2

/-- Layer lookup of `vec_tr.main` lines 90-93: `GetLayerByName` when a layer
name was given, else `GetLayer(0)`. -/
def lookupLayer (ds : VDataSource) (layer_name : Option String) : Option VLayer :=
  match layer_name with
  | some n => ds.layers.find? fun l => l.name = n
  | none => ds.layers.head?

/-- The feature loop of `vec_tr.main` lines 122-137: each input feature's
geometry is cloned, walked with `WalkAndTransform`, and written into a new
output feature. -/
def featureEvents (feats : List Feature) : List VEvent :=
  (feats.enum.map fun fi => VEvent.createFeature fi.1 (WalkAndTransform fi.2.geom))

/-- `vec_tr.main` (lines 64-145), returning its outcome together with the
trace of OGR calls it makes.  Failure points follow the Python code: a
`None` result from `ogr.Open`, the layer lookup, `GetDriverByName`,
`CreateDataSource` or `CreateLayer` makes the next method call on `None`
raise (`pyError`).  `DeleteDataSource` is called unconditionally before
`CreateDataSource` (lines 100-103). -/
def vecTrMain (w : VWorld) (argv : List String) : VOut × List VEvent :=
  match vecTrParse (argv.drop 1) with
  | .error c => (.ret c, [])
  | .ok (infile, outfile, layer_name) =>
    match w.openInput infile with
    | none => (.pyError, [.openInput infile])
    | some in_ds =>
      match lookupLayer in_ds layer_name with
      | none => (.pyError, [.openInput infile])
      | some in_layer =>
        if w.hasShpDriver then
          let t1 : List VEvent := [.openInput infile, .deleteDataSource outfile,
            .createDataSource outfile]
          match w.createDataSource outfile with
          | none => (.pyError, t1)
          | some _ =>
            let t2 := t1 ++ [VEvent.createLayer in_layer.name]
            if w.createLayerOk then
              (.ret 0, t2 ++ featureEvents in_layer.features)
            else
              if in_layer.fieldCount > 0 then (.pyError, t2)
              else
                match in_layer.features with
                | [] => (.ret 0, t2)
                | _ => (.pyError, t2)
        else
          (.pyError, [.openInput infile])

end VecTr

namespace GdalProximity

/-- `Usage(isError)` from `gdal_proximity.py` lines 24-37: prints the usage
text and returns 2 on error, 0 otherwise. -/
def Usage (isError : Bool) : ℤ :=
  if isError then 2 else 0

/-- The local variables of `main` (lines 43-51), which are also exactly the
parameters of `gdal_proximity` (lines 148-158). -/
structure ProxParams where
  driver_name : Option String
  creation_options : List String
  alg_options : List String
  src_filename : Option String
  src_band_n : ℤ
  dst_filename : Option String
  dst_band_n : ℤ
  creation_type : String
  quiet : Bool
deriving DecidableEq

/-- The initial state of `main`'s locals (lines 43-51). -/
def initialParams : ProxParams :=
  { driver_name := none
    creation_options := []
    alg_options := []
    src_filename := none
    src_band_n := 1
    dst_filename := none
    dst_band_n := 1
    creation_type := "Float32"
    quiet := false }

/-- Python `int(s)` on a decimal string: optional surrounding whitespace,
optional sign, then decimal digits.  `none` models a `ValueError`.
(Underscores between digits and non-decimal bases are not modelled; no
claim depends on them.) -/
def pyInt (s : String) : Option ℤ :=
  let digitsVal : List Char → Option ℤ := fun l =>
    if l ≠ [] ∧ l.all Char.isDigit then
      some (l.foldl (fun n c => 10 * n + ((c.toNat : ℤ) - 48)) 0)
    else none
  let stripped :=
    ((s.toList.dropWhile Char.isWhitespace).reverse.dropWhile Char.isWhitespace).reverse
  match stripped with
  | '-' :: rest => (digitsVal rest).map (fun n => -n)
  | '+' :: rest => digitsVal rest
  | l => digitsVal l

/-- Result of the argument-parsing `while` loop of `main` (lines 58-125). -/
inductive LoopOut where
  /-- the loop consumed all of `argv[1:]`, leaving these locals. -/
  | fin (st : ProxParams)
  /-- an explicit `return` from inside the loop (`--help`, an unrecognized
  option, or a third positional argument). -/
  | early (code : ℤ)
  /-- an uncaught `IndexError`: `argv[i]` past the end of the list (a
  value-taking flag in last position), or `arg[0]` on an empty argument. -/
  | indexError
  /-- an uncaught `ValueError` from `int(argv[i])`. -/
  | valueError
deriving DecidableEq

/-- The argument-parsing `while` loop of `main`, lines 58-125, as a
recursion over the remaining arguments.  Each branch mirrors the
corresponding `elif` in source order; value-taking flags consume the next
argument (`i = i + 1`), raising `IndexError` when there is none. -/
def parseLoop (st : ProxParams) : List String → LoopOut
  | [] => .fin st
  | arg :: rest =>
    if arg = "--help" then .early (Usage false)
    else if arg = "-of" ∨ arg = "-f" then
      match rest with
      | [] => .indexError
      | v :: r => parseLoop { st with driver_name := some v } r
    else if arg = "-co" then
      match rest with
      | [] => .indexError
      | v :: r => parseLoop { st with creation_options := st.creation_options ++ [v] } r
    else if arg = "-ot" then
      match rest with
      | [] => .indexError
      | v :: r => parseLoop { st with creation_type := v } r
    else if arg = "-maxdist" then
      match rest with
      | [] => .indexError
      | v :: r => parseLoop { st with alg_options := st.alg_options ++ ["MAXDIST=" ++ v] } r
    else if arg = "-values" then
      match rest with
      | [] => .indexError
      | v :: r => parseLoop { st with alg_options := st.alg_options ++ ["VALUES=" ++ v] } r
    else if arg = "-distunits" then
      match rest with
      | [] => .indexError
      | v :: r => parseLoop { st with alg_options := st.alg_options ++ ["DISTUNITS=" ++ v] } r
    else if arg = "-nodata" then
      match rest with
      | [] => .indexError
      | v :: r => parseLoop { st with alg_options := st.alg_options ++ ["NODATA=" ++ v] } r
    else if arg = "-use_input_nodata" then
      match rest with
      | [] => .indexError
      | v :: r =>
        parseLoop { st with alg_options := st.alg_options ++ ["USE_INPUT_NODATA=" ++ v] } r
    else if arg = "-fixed-buf-val" then
      match rest with
      | [] => .indexError
      | v :: r =>
        parseLoop { st with alg_options := st.alg_options ++ ["FIXED_BUF_VAL=" ++ v] } r
    else if arg = "-srcband" then
      match rest with
      | [] => .indexError
      | v :: r =>
        match pyInt v with
        | none => .valueError
        | some n => parseLoop { st with src_band_n := n } r
    else if arg = "-dstband" then
      match rest with
      | [] => .indexError
      | v :: r =>
        match pyInt v with
        | none => .valueError
        | some n => parseLoop { st with dst_band_n := n } r
    else if arg = "-q" ∨ arg = "-quiet" then parseLoop { st with quiet := true } rest
    else if arg = "" then .indexError
    else if arg.toList.headD ' ' = '-' then .early (Usage true)
    else if st.src_filename = none then parseLoop { st with src_filename := some arg } rest
    else if st.dst_filename = none then parseLoop { st with dst_filename := some arg } rest
    else .early (Usage true)

/-- Result of the whole argument handling of `main`: the loop followed by
the `Missing <srcfile>` / `Missing <dstfile>` checks (lines 127-133). -/
inductive ParseOut where
  | early (code : ℤ)
  | indexError
  | valueError
  | ok (st : ProxParams)
deriving DecidableEq

/-- The argument handling of `main`, lines 58-133: run the parse loop, then
return `Usage(isError=True)` if the source or destination filename is
missing. -/
def parseArgs (st : ProxParams) (args : List String) : ParseOut :=
  match parseLoop st args with
  | .fin st' =>
    if st'.src_filename = none then .early (Usage true)
    else if st'.dst_filename = none then .early (Usage true)
    else .ok st'
  | .early c => .early c
  | .indexError => .indexError
  | .valueError => .valueError

/-- The six algorithm flags and their option-string keys (lines 77-99). -/
def algFlagKey (arg : String) : Option String :=
  if arg = "-maxdist" then some "MAXDIST"
  else if arg = "-values" then some "VALUES"
  else if arg = "-distunits" then some "DISTUNITS"
  else if arg = "-nodata" then some "NODATA"
  else if arg = "-use_input_nodata" then some "USE_INPUT_NODATA"
  else if arg = "-fixed-buf-val" then some "FIXED_BUF_VAL"
  else none

/-- Value-taking flags other than the algorithm flags: they consume the
following argument without contributing an algorithm option. -/
def otherValueFlag (arg : String) : Bool :=
  arg = "-of" ∨ arg = "-f" ∨ arg = "-co" ∨ arg = "-ot" ∨ arg = "-srcband" ∨ arg = "-dstband"

/-- Stated from the claim: scanning the command line left to right, each
recognized algorithm flag with its value `v` contributes exactly one option
string `KEY=v`, in flag order, with `v` unmodified; every other value-taking
flag consumes its value; all other arguments contribute nothing. -/
def algScan : List String → List String
  | [] => []
  | arg :: rest =>
    match algFlagKey arg with
    | some key =>
      match rest with
      | [] => []
      | v :: r => (key ++ "=" ++ v) :: algScan r
    | none =>
      if otherValueFlag arg then
        match rest with
        | [] => []
        | _ :: r => algScan r
      else algScan rest

/-- All value-taking flags of `main` (they read `argv[i+1]`). -/
def valueFlags : List String :=
  ["-of", "-f", "-co", "-ot", "-maxdist", "-values", "-distunits", "-nodata",
   "-use_input_nodata", "-fixed-buf-val", "-srcband", "-dstband"]

end GdalProximity

namespace GdalProximity

/-- A GDAL raster dataset as used by `gdal_proximity`: its size, band count,
geotransform and projection.  Geotransform coefficients and the projection
are abstract values; `SetGeoTransform`/`SetProjection` replace them. -/
structure Dataset where
  rasterXSize : ℕ
  rasterYSize : ℕ
  nBands : ℕ
  geoTransform : List ℤ
  projectionRef : String
deriving DecidableEq

/-- A raster band: the dataset it belongs to and its 1-based band index. -/
structure BandRef where
  ds : Dataset
  n : ℤ
deriving DecidableEq

/-- `ds.GetRasterBand(n)`: valid for `1 ≤ n ≤ nBands`; `none` models the
failure (with GDAL exceptions enabled by the `@enable_gdal_exceptions`
decorator, an out-of-range band raises). -/
def getRasterBand (ds : Dataset) (n : ℤ) : Option BandRef :=
  if 1 ≤ n ∧ n ≤ (ds.nBands : ℤ) then some ⟨ds, n⟩ else none

/-- The value of the local `driver_name` in `gdal_proximity`: either a
string (from the `-of` flag) or a `Driver` object returned by
`gdal.IdentifyDriver` (line 178 rebinds the variable to that object). -/
inductive DrvName where
  | str (s : String)
  | obj (s : String)
deriving DecidableEq

/-- The progress callback argument of `gdal.ComputeProximity`. -/
inductive Callback where
  | TermProgress_nocb
deriving DecidableEq

/-- `prog_func` selection, lines 213-216. -/
def progFunc (quiet : Bool) : Option Callback :=
  if quiet then none else some Callback.TermProgress_nocb

/-- The arguments of the single `gdal.ComputeProximity` call (line 218). -/
structure ComputeCall where
  srcband : BandRef
  dstband : BandRef
  options : List String
  callback : Option Callback
deriving DecidableEq

/-- The arguments of the `drv.Create` call (lines 195-202). -/
structure CreateCall where
  filename : Option String
  xsize : ℕ
  ysize : ℕ
  nbands : ℕ
  dtype : ℤ
  options : List String
deriving DecidableEq

/-- External GDAL behaviour for one run of `gdal_proximity.py`. -/
structure World where
  /-- `gdal.GeneralCmdLineProcessor(argv)` (line 53): `none` models `None`. -/
  generalCmdLine : List String → Option (List String)
  /-- `gdal.Open(src_filename)` (line 165): `none` models `None`. -/
  gdalOpen : Option String → Option Dataset
  /-- `gdal.IdentifyDriver(dst_filename)` (line 178): outer `none` models a
  raised exception (caught by the `try`), `some none` a `None` return,
  `some (some s)` a `Driver` object named `s`. -/
  identifyDriver : Option String → Option (Option String)
  /-- `gdal.Open(dst_filename, gdal.GA_Update)` (line 180): `none` models a
  raised exception or a `None` return (both end with `dst_ds = None`). -/
  openUpdate : Option String → Option Dataset
  /-- `GetOutputDriverFor(dst_filename)` (line 192): `none` models a raised
  exception (uncaught). -/
  getOutputDriverFor : Option String → Option String
  /-- `gdal.GetDriverByName(name)` (line 194): whether a driver exists. -/
  getDriverByName : String → Option Unit
  /-- `gdal.GetDataTypeByName(creation_type)` (line 200). -/
  getDataTypeByName : String → ℤ
  /-- `drv.Create(dst_filename, xsize, ysize, bands, dtype, options)`
  (lines 195-202): the created dataset, `none` on failure. -/
  create : Option String → ℕ → ℕ → ℕ → ℤ → List String → Option Dataset

/-- Outcome of `gdal_proximity` / `main`. -/
inductive MainRes where
  /-- an explicit `return v`; `none` is Python `None`. -/
  | ret (v : Option ℤ)
  /-- fell off the end of `gdal_proximity` (Python returns `None`) after
  making the recorded `drv.Create` call (if any) and the recorded
  `gdal.ComputeProximity` call. -/
  | done (created : Option CreateCall) (call : ComputeCall)
  /-- an uncaught Python exception. -/
  | pyError

/-- The `try` block of `gdal_proximity`, lines 177-185: attempts to open the
destination as an existing dataset.  Returns the value of `driver_name`
after the block (line 178 rebinds it unless `IdentifyDriver` raised) and the
destination band on success. -/
def tryOpenDst (w : World) (dst_filename : Option String) (dst_band_n : ℤ)
    (driver_name : Option String) : Option DrvName × Option BandRef :=
  match w.identifyDriver dst_filename with
  | none => (driver_name.map .str, none)
  | some none => (none, none)
  | some (some dn) =>
    match w.openUpdate dst_filename with
    | none => (some (.obj dn), none)
    | some dst_ds =>
      match getRasterBand dst_ds dst_band_n with
      | none => (some (.obj dn), none)
      | some b => (some (.obj dn), some b)

/-- Lines 204-205: `dst_ds.SetGeoTransform(src_ds.GetGeoTransform())` and
`dst_ds.SetProjection(src_ds.GetProjectionRef())` on a freshly created
dataset. -/
def copyGeoref (src_ds ds0 : Dataset) : Dataset :=
  { ds0 with geoTransform := src_ds.geoTransform
             projectionRef := src_ds.projectionRef }

/-- Lines 190-192: `if driver_name is None: driver_name =
GetOutputDriverFor(dst_filename)`; a raised exception is `none` and
propagates. -/
def resolveDriverName (w : World) (dst_filename : Option String) :
    Option DrvName → Option DrvName
  | none => (w.getOutputDriverFor dst_filename).map .str
  | some d => some d

/-- `gdal_proximity` from lines 148-223.  Opens the source (returning 1 on
failure), opens or creates the destination, and invokes
`gdal.ComputeProximity(srcband, dstband, alg_options, callback=prog_func)`. -/
def gdal_proximity (w : World) (p : ProxParams) : MainRes :=
  match w.gdalOpen p.src_filename with
  | none => .ret (some 1)
  | some src_ds =>
    match getRasterBand src_ds p.src_band_n with
    | none => .pyError
    | some srcband =>
      match tryOpenDst w p.dst_filename p.dst_band_n p.driver_name with
      | (_, some dstband) =>
        .done none ⟨srcband, dstband, p.alg_options, progFunc p.quiet⟩
      | (dn, none) =>
        match resolveDriverName w p.dst_filename dn with
        | none => .pyError
        | some (.obj _) => .pyError
        | some (.str s) =>
          match w.getDriverByName s with
          | none => .pyError
          | some _ =>
            match w.create p.dst_filename src_ds.rasterXSize src_ds.rasterYSize 1
              (w.getDataTypeByName p.creation_type) p.creation_options with
            | none => .pyError
            | some ds0 =>
              match getRasterBand (copyGeoref src_ds ds0) 1 with
              | none => .pyError
              | some dstband =>
                .done
                  (some ⟨p.dst_filename, src_ds.rasterXSize, src_ds.rasterYSize, 1,
                    w.getDataTypeByName p.creation_type, p.creation_options⟩)
                  ⟨srcband, dstband, p.alg_options, progFunc p.quiet⟩

/-- `main` from lines 41-145: run `gdal.GeneralCmdLineProcessor` (returning
0 when it yields `None`), parse `argv[1:]`, and call `gdal_proximity` with
the parsed parameters. -/
def main (w : World) (argv : List String) : MainRes :=
  match w.generalCmdLine argv with
  | none => .ret (some 0)
  | some argv2 =>
    match parseArgs initialParams (argv2.drop 1) with
    | .early c => .ret (some c)
    | .indexError => .pyError
    | .valueError => .pyError
    | .ok st => gdal_proximity w st

/-- The process exit code of `sys.exit(main(sys.argv))` (lines 226-227):
`sys.exit(None)` exits with 0, `sys.exit(n)` with `n`; `none` models the
abnormal termination of an uncaught exception. -/
def exitCode : MainRes → Option ℤ
  | .ret none => some 0
  | .ret (some c) => some c
  | .done _ _ => some 0
  | .pyError => none

end GdalProximity

namespace Engine

/-- Modelled from the spec: the error taxonomy of the proximity engine
(`DimensionMismatch`, `InvalidOption`, `IOFailure`, `Cancelled`).  Only
`dimensionMismatch` can arise here: options are supplied already parsed,
band reads are total, and cancellation is not modelled. -/
inductive EngineError where
  | dimensionMismatch
  | invalidOption
  | ioFailure
  | cancelled
deriving DecidableEq

/-- Modelled from the spec: the distance unit mode, PIXEL or GEO. -/
inductive DistUnit where
  | pixel
  | geo
deriving DecidableEq

/-- Modelled from the spec: the input raster band of the engine, a W×H grid
of numeric cell values with an optional no-data sentinel, plus the pixel
size that GEO mode scales by (georeferencing metadata supplied by the
caller). -/
structure InputBand where
  width : ℕ
  height : ℕ
  cells : List (List ℤ)
  nodata : Option ℤ
  pixelSize : ℤ
deriving DecidableEq

/-- Modelled from the spec: the parsed algorithm options VALUES, DISTUNITS,
MAXDIST, NODATA, USE_INPUT_NODATA and FIXED_BUF_VAL. -/
structure AlgOpts where
  values : List ℤ
  distUnits : DistUnit
  maxDist : Option ℤ
  nodata : ℤ
  useInputNodata : Bool
  fixedBufVal : Option ℤ
deriving DecidableEq

/-- The cell value of the input band at column `x`, row `y`. -/
def cellVal (b : InputBand) (x y : ℕ) : ℤ :=
  (b.cells.getD y []).getD x 0

/-- Modelled from the spec: whether a cell value is a source.  With
USE_INPUT_NODATA, input no-data cells are always excluded as sources; with
an empty VALUES list, any non-no-data, non-zero cell is a source; otherwise
the cell value must be in the VALUES list. -/
def isSource (b : InputBand) (o : AlgOpts) (v : ℤ) : Bool :=
  if o.useInputNodata = true ∧ b.nodata = some v then false
  else if o.values = [] then decide (v ≠ 0 ∧ b.nodata ≠ some v)
  else decide (v ∈ o.values)

/-- All source cells of the input band, as `(x, y)` pairs. -/
def sources (b : InputBand) (o : AlgOpts) : List (ℕ × ℕ) :=
  (List.range b.height).flatMap fun y =>
    (List.range b.width).filterMap fun x =>
      if isSource b o (cellVal b x y) then some (x, y) else none

/-- Modelled from the spec: the grid-step distance between two cells.  The
spec's two-pass chamfer sweep with the open neighbour-cost table instanced
at unit orthogonal and diagonal cost computes exactly the Chebyshev
distance, which is the "Chebyshev/Manhattan-like stepped distance" named
for PIXEL mode; we define that closed form directly. -/
def cheb (p q : ℕ × ℕ) : ℕ :=
  max (Nat.dist p.1 q.1) (Nat.dist p.2 q.2)

/-- The minimum of a list of naturals, `none` for the empty list. -/
def listMin (l : List ℕ) : Option ℕ :=
  l.foldr (fun a m => match m with | none => some a | some b => some (min a b)) none

/-- The grid distance from a cell to the nearest source cell, `none` when
there is no source at all. -/
def nearestDist (b : InputBand) (o : AlgOpts) (x y : ℕ) : Option ℕ :=
  listMin ((sources b o).map fun s => cheb (x, y) s)

/-- Modelled from the spec: PIXEL mode reports the pixel count, GEO mode
scales it by the raster's pixel size. -/
def scale (b : InputBand) (o : AlgOpts) (d : ℕ) : ℤ :=
  match o.distUnits with
  | .pixel => (d : ℤ)
  | .geo => (d : ℤ) * b.pixelSize

/-- Modelled from the spec: the definitive value of one output cell: the
no-data sentinel if the input cell is no-data under USE_INPUT_NODATA, or if
there is no source at all, or if the distance to the nearest source exceeds
MAXDIST; otherwise FIXED_BUF_VAL when configured ("rather than the real
distance"), else the distance in the requested unit. -/
def outCell (b : InputBand) (o : AlgOpts) (x y : ℕ) : ℤ :=
  if o.useInputNodata = true ∧ b.nodata = some (cellVal b x y) then o.nodata
  else
    match nearestDist b o x y with
    | none => o.nodata
    | some d =>
      let dz := scale b o d
      match o.maxDist with
      | some md => if md < dz then o.nodata else o.fixedBufVal.getD dz
      | none => o.fixedBufVal.getD dz

/-- An output raster grid, row-major. -/
abbrev Grid := List (List ℤ)

/-- One definitive write of one output cell (row `y`, column `x`). -/
def setCell (g : Grid) (y x : ℕ) (v : ℤ) : Grid :=
  g.set y ((g.getD y []).set x v)

/-- All cell coordinates `(y, x)` of an H×W grid, in row-major order. -/
def allPairs (h w : ℕ) : List (ℕ × ℕ) :=
  (List.range h).flatMap fun y => (List.range w).map fun x => (y, x)

/-- Whether a grid has exactly the dimensions of the input band. -/
def dimsOk (b : InputBand) (g : Grid) : Prop :=
  g.length = b.height ∧ ∀ r ∈ g, r.length = b.width

instance (b : InputBand) (g : Grid) : Decidable (dimsOk b g) := by
  unfold dimsOk
  infer_instance

/-- Modelled from the spec: `computeProximity(input, output, options)`.
The output band must have the input's dimensions (`DimensionMismatch`
otherwise); then every output cell is written exactly once, in row-major
order, with its definitive value; the engine never re-reads its own
output. -/
def computeProximity (b : InputBand) (o : AlgOpts) (out0 : Grid) :
    Except EngineError Grid :=
  if dimsOk b out0 then
    .ok ((allPairs b.height b.width).foldl
      (fun g p => setCell g p.1 p.2 (outCell b o p.2 p.1)) out0)
  else
    .error .dimensionMismatch

/-- The grid of definitive output values, row-major. -/
def mkGrid (b : InputBand) (o : AlgOpts) : Grid :=
  (List.range b.height).map fun y => (List.range b.width).map fun x => outCell b o x y

end Engine

namespace VecTr

/-- A concrete geometry: one multi-geometry containing one leaf ring. -/
def exGeom : Geometry := .geom [.geom [] [(1, 2, 3), (4, 5, 6)]] []

/-- A concrete input feature. -/
def exFeature : Feature := ⟨["name"], exGeom⟩

/-- A concrete input layer with one feature. -/
def exLayer : VLayer := ⟨"roads", 0, [exFeature]⟩

/-- A concrete input datasource. -/
def exVDS : VDataSource := ⟨[exLayer]⟩

/-- A concrete OGR world where every call succeeds. -/
def exVWorld : VWorld := ⟨fun _ => some exVDS, true, fun _ => some (), true⟩

/-- A concrete OGR world where `CreateDataSource` fails after the old
output has already been deleted. -/
def exVWorldCreateFail : VWorld := ⟨fun _ => some exVDS, true, fun _ => none, true⟩

end VecTr

namespace GdalProximity

/-- The recognized command-line arguments of `main` (lines 62-110). -/
def recognizedArgs : List String :=
  ["--help", "-of", "-f", "-co", "-ot", "-maxdist", "-values", "-distunits", "-nodata",
   "-use_input_nodata", "-fixed-buf-val", "-srcband", "-dstband", "-q", "-quiet"]

/-- A concrete source dataset. -/
def exSrcDs : Dataset := ⟨4, 3, 2, [100, 1, 0, 200, 0, -1], "EPSG:32633"⟩

/-- A concrete pre-existing destination dataset. -/
def exDstDs : Dataset := ⟨4, 3, 1, [0, 1, 0, 0, 0, 1], "EPSG:4326"⟩

/-- A concrete GDAL world in which the source opens, the destination does
not identify as an existing dataset, and creation succeeds. -/
def wCreate : World :=
  { generalCmdLine := fun argv => some argv
    gdalOpen := fun f => if f = some "in.tif" then some exSrcDs else none
    identifyDriver := fun _ => some none
    openUpdate := fun _ => none
    getOutputDriverFor := fun _ => some "GTiff"
    getDriverByName := fun _ => some ()
    getDataTypeByName := fun s => if s = "Float32" then 6 else 0
    create := fun _ x y n _ _ => some ⟨x, y, n, [7, 7, 7, 7, 7, 7], "unset"⟩ }

/-- A concrete GDAL world in which `gdal.Open` yields no dataset. -/
def wOpenFail : World := { wCreate with gdalOpen := fun _ => none }

/-- Concrete parameters: a source and a destination filename, all else
default. -/
def pEx : ProxParams :=
  { initialParams with src_filename := some "in.tif", dst_filename := some "out.tif" }

/-- `pEx` with the quiet flag set. -/
def pExQuiet : ProxParams := { pEx with quiet := true }

/-- The dataset created for `pEx` under `wCreate`, after
`SetGeoTransform`/`SetProjection` copied the source metadata. -/
def exDs1 : Dataset := ⟨4, 3, 1, [100, 1, 0, 200, 0, -1], "EPSG:32633"⟩

/-- The `drv.Create` call made for `pEx` under `wCreate`. -/
def exCC : CreateCall := ⟨some "out.tif", 4, 3, 1, 6, []⟩

/-- The `ComputeProximity` call made for `pEx` under `wCreate`. -/
def exCall : ComputeCall := ⟨⟨exSrcDs, 1⟩, ⟨exDs1, 1⟩, [], some .TermProgress_nocb⟩

/-- The `ComputeProximity` call made for `pExQuiet` under `wCreate`. -/
def exCallQuiet : ComputeCall := ⟨⟨exSrcDs, 1⟩, ⟨exDs1, 1⟩, [], none⟩

end GdalProximity

namespace Engine

/-- The value of one cell of an output grid. -/
def cellOf (g : Grid) (y x : ℕ) : ℤ :=
  (g.getD y []).getD x 0

/-- A concrete 2×1 input band with a single source cell at (0,0). -/
def exBand : InputBand := ⟨2, 1, [[1, 0]], none, 1⟩

/-- A concrete 1×1 input band whose only cell holds the no-data value 1. -/
def exBandNodata : InputBand := ⟨1, 1, [[1]], some 1, 1⟩

/-- Concrete options: VALUES=1, PIXEL units, no MAXDIST, NODATA=9. -/
def exOpts : AlgOpts := ⟨[1], .pixel, none, 9, false, none⟩

end Engine

namespace VecTr

theorem flatMap_attach_val {α β : Type _} (l : List α) (g : α → List β) :
    (l.attach.flatMap fun s => g s.1) = l.flatMap g := by
  rw [← List.flatMap_map Subtype.val g l.attach, List.attach_map_subtype_val]

theorem flatMap_congr_mem {α β : Type _} {l : List α} {f g : α → List β}
    (h : ∀ x ∈ l, f x = g x) : l.flatMap f = l.flatMap g := by
  induction l with
  | nil => rfl
  | cons a l ih =>
    simp only [List.flatMap_cons]
    rw [h a (by simp), ih fun x hx => h x (by simp [hx])]

/-- `WalkAndTransform` maps `TransformPoint` over the leaf vertices. -/
theorem leafPoints_walk (g : Geometry) :
    leafPoints (WalkAndTransform g) = (leafPoints g).map TransformPoint := by
  match g with
  | .geom subs pts =>
    have ih : ∀ s ∈ subs,
        leafPoints (WalkAndTransform s) = (leafPoints s).map TransformPoint := by
      intro s hs
      have := List.sizeOf_lt_of_mem hs
      exact leafPoints_walk s
    by_cases h : subs.length > 0
    · rw [WalkAndTransform]
      simp only [h, if_pos]
      rw [leafPoints, leafPoints]
      have hlen : (subs.attach.map fun s => WalkAndTransform s.1).length > 0 := by
        simpa using h
      simp only [hlen, if_pos, h]
      rw [List.attach_map_val subs WalkAndTransform, flatMap_attach_val, flatMap_attach_val,
        List.flatMap_map, List.map_flatMap]
      exact flatMap_congr_mem ih
    · rw [WalkAndTransform]
      simp only [h, if_neg, if_false]
      rw [leafPoints, leafPoints]
      simp [h]
termination_by sizeOf g
decreasing_by
  simp only [Geometry.geom.sizeOf_spec]
  omega

/-- `WalkAndTransform` preserves the geometry's structural skeleton. -/
theorem skeleton_walk (g : Geometry) :
    skeleton (WalkAndTransform g) = skeleton g := by
  match g with
  | .geom subs pts =>
    have ih : ∀ s ∈ subs, skeleton (WalkAndTransform s) = skeleton s := by
      intro s hs
      have := List.sizeOf_lt_of_mem hs
      exact skeleton_walk s
    by_cases h : subs.length > 0
    · rw [WalkAndTransform]
      simp only [h, if_pos]
      rw [skeleton, skeleton]
      rw [List.attach_map_val subs WalkAndTransform, List.attach_map_val,
        List.attach_map_val subs skeleton, List.map_map]
      exact congrArg (fun l => GeomShape.node l pts.length)
        (List.map_congr_left fun s hs => ih s hs)
    · rw [WalkAndTransform]
      simp only [h, if_neg, if_false]
      rw [skeleton, skeleton]
      simp
termination_by sizeOf g
decreasing_by
  simp only [Geometry.geom.sizeOf_spec]
  omega

/-- C4: `WalkAndTransform` applies `TransformPoint` to every vertex of
every leaf geometry at every nesting depth, exactly once; and the main loop
of `vec_tr` walks every feature's cloned geometry exactly once, so its
trace creates, for the i-th feature, one output feature whose geometry is
the walked clone. -/
theorem c4_walk_transforms_every_leaf_vertex :
    (∀ g : Geometry, leafPoints (WalkAndTransform g) = (leafPoints g).map TransformPoint) ∧
    (∀ (w : VWorld) (argv : List String) (infile outfile : String)
      (layer_name : Option String) (in_ds : VDataSource) (in_layer : VLayer),
      vecTrParse (argv.drop 1) = .ok (infile, outfile, layer_name) →
      w.openInput infile = some in_ds →
      lookupLayer in_ds layer_name = some in_layer →
      w.hasShpDriver = true →
      w.createDataSource outfile = some () →
      w.createLayerOk = true →
      (vecTrMain w argv).2 =
        [.openInput infile, .deleteDataSource outfile, .createDataSource outfile,
          .createLayer in_layer.name] ++
        (in_layer.features.enum.map fun fi =>
          VEvent.createFeature fi.1 (WalkAndTransform fi.2.geom))) := by
  refine ⟨leafPoints_walk, ?_⟩
  intro w argv infile outfile layer_name in_ds in_layer hp ho hl hd hc hk
  simp only [List.drop_one] at hp
  simp [vecTrMain, hp, ho, hl, hd, hc, hk, featureEvents]

/-- C4 witness: a concrete one-feature run. -/
theorem c4_witness :
    (vecTrMain exVWorld ["vec_tr", "a.shp", "b.shp"]).2 =
      [.openInput "a.shp", .deleteDataSource "b.shp", .createDataSource "b.shp",
        .createLayer "roads"] ++
      (exLayer.features.enum.map fun fi =>
        VEvent.createFeature fi.1 (WalkAndTransform fi.2.geom)) := by
  exact c4_walk_transforms_every_leaf_vertex.2 exVWorld ["vec_tr", "a.shp", "b.shp"]
    "a.shp" "b.shp" none exVDS exLayer (by rfl) (by rfl) (by rfl) (by rfl) (by rfl) (by rfl)

/-- C8: `TransformPoint` returns `(x + 1000, y, z)`; consequently
`WalkAndTransform` preserves the structural skeleton (sub-geometry and
point counts) and leaves every leaf vertex's y and z coordinates
unchanged. -/
theorem c8_transform_shifts_x_only :
    (∀ x y z : ℤ, TransformPoint (x, y, z) = (x + 1000, y, z)) ∧
    (∀ g : Geometry, skeleton (WalkAndTransform g) = skeleton g) ∧
    (∀ g : Geometry,
      (leafPoints (WalkAndTransform g)).map (fun p => (p.2.1, p.2.2)) =
        (leafPoints g).map (fun p => (p.2.1, p.2.2))) := by
  refine ⟨fun x y z => rfl, skeleton_walk, fun g => ?_⟩
  rw [leafPoints_walk, List.map_map]
  rfl

/-- C9: once the input has been opened and the layer resolved, `vec_tr`
deletes any datasource at the output path as its very next external call,
before any feature is processed and regardless of whether the rest of the
run succeeds (the trace below holds for every outcome of the
creation-stage calls). -/
theorem c9_output_deleted_before_features :
    ∀ (w : VWorld) (argv : List String) (infile outfile : String)
      (layer_name : Option String) (in_ds : VDataSource) (in_layer : VLayer),
      vecTrParse (argv.drop 1) = .ok (infile, outfile, layer_name) →
      w.openInput infile = some in_ds →
      lookupLayer in_ds layer_name = some in_layer →
      w.hasShpDriver = true →
      ∃ rest, (vecTrMain w argv).2 =
        [VEvent.openInput infile, VEvent.deleteDataSource outfile] ++ rest ∧
        ∀ i g, VEvent.createFeature i g ∉
          [VEvent.openInput infile, VEvent.deleteDataSource outfile] := by
  intro w argv infile outfile layer_name in_ds in_layer hp ho hl hd
  have hnotin : ∀ (i : ℕ) (g : Geometry), VEvent.createFeature i g ∉
      [VEvent.openInput infile, VEvent.deleteDataSource outfile] := by
    intro i g hmem
    simp at hmem
  simp only [List.drop_one] at hp
  rcases hcd : w.createDataSource outfile with _ | u
  · exact ⟨[.createDataSource outfile], by simp [vecTrMain, hp, ho, hl, hd, hcd], hnotin⟩
  · by_cases hk : w.createLayerOk
    · exact ⟨[.createDataSource outfile, .createLayer in_layer.name] ++
        featureEvents in_layer.features,
        by simp [vecTrMain, hp, ho, hl, hd, hcd, hk], hnotin⟩
    · by_cases hfc : in_layer.fieldCount > 0
      · exact ⟨[.createDataSource outfile, .createLayer in_layer.name],
          by simp [vecTrMain, hp, ho, hl, hd, hcd, hk, hfc], hnotin⟩
      · rcases hf : in_layer.features with _ | ⟨a, t⟩
        · exact ⟨[.createDataSource outfile, .createLayer in_layer.name],
            by simp [vecTrMain, hp, ho, hl, hd, hcd, hk, hfc, hf], hnotin⟩
        · exact ⟨[.createDataSource outfile, .createLayer in_layer.name],
            by simp [vecTrMain, hp, ho, hl, hd, hcd, hk, hfc, hf], hnotin⟩

/-- C9 witness: with a world whose `CreateDataSource` fails, the trace still
opens the input and then deletes the output. -/
theorem c9_witness :
    ∃ rest, (vecTrMain exVWorldCreateFail ["vec_tr", "a.shp", "b.shp"]).2 =
      [VEvent.openInput "a.shp", VEvent.deleteDataSource "b.shp"] ++ rest ∧
      ∀ i g, VEvent.createFeature i g ∉
        [VEvent.openInput "a.shp", VEvent.deleteDataSource "b.shp"] := by
  exact c9_output_deleted_before_features exVWorldCreateFail ["vec_tr", "a.shp", "b.shp"]
    "a.shp" "b.shp" none exVDS exLayer (by rfl) (by rfl) (by rfl) (by rfl)

end VecTr

namespace GdalProximity

theorem algScan_nil : algScan [] = [] := rfl

theorem algScan_flag (arg key v : String) (r : List String) (h : algFlagKey arg = some key) :
    algScan (arg :: v :: r) = (key ++ "=" ++ v) :: algScan r := by
  simp [algScan, h]

theorem algScan_flag_last (arg key : String) (h : algFlagKey arg = some key) :
    algScan [arg] = [] := by
  simp [algScan, h]

theorem algScan_other (arg v : String) (r : List String) (h : algFlagKey arg = none)
    (h2 : otherValueFlag arg = true) : algScan (arg :: v :: r) = algScan r := by
  simp [algScan, h, h2]

theorem algScan_other_last (arg : String) (h : algFlagKey arg = none)
    (h2 : otherValueFlag arg = true) : algScan [arg] = [] := by
  simp [algScan, h, h2]

theorem algScan_skip (arg : String) (r : List String) (h : algFlagKey arg = none)
    (h2 : otherValueFlag arg = false) : algScan (arg :: r) = algScan r := by
  cases r with
  | nil => simp [algScan, h, h2]
  | cons a t => simp [algScan, h, h2]

/-- The parse loop accumulates exactly the option strings of `algScan`. -/
theorem parseLoop_alg : ∀ (st : ProxParams) (args : List String) (st' : ProxParams),
    parseLoop st args = .fin st' → st'.alg_options = st.alg_options ++ algScan args := by
  intro st args
  induction st, args using parseLoop.induct <;> intro st' h <;>
    (try (obtain rfl | rfl := ‹_ = "-of" ∨ _ = "-f"›)) <;>
    (try (obtain rfl | rfl := ‹_ = "-q" ∨ _ = "-quiet"›)) <;>
    rw [parseLoop.eq_def] at h <;>
    simp_all [algScan_nil, algScan_flag, algScan_flag_last, algScan_other, algScan_other_last,
      algScan_skip, algFlagKey, otherValueFlag, Usage]

/-- C2: each recognized algorithm flag `-values`, `-distunits`, `-maxdist`,
`-nodata`, `-use_input_nodata`, `-fixed-buf-val` with value `v` is
translated into exactly one option string `KEY=v`, appended in flag order
with `v` unmodified (`algScan` is that translation); a successful parse
yields exactly that list, and `gdal_proximity` passes it unchanged to
`gdal.ComputeProximity`. -/
theorem c2_alg_option_translation :
    (∀ (st : ProxParams) (args : List String) (st' : ProxParams),
      parseLoop st args = .fin st' → st'.alg_options = st.alg_options ++ algScan args) ∧
    (∀ (args : List String) (st' : ProxParams),
      parseArgs initialParams args = .ok st' → st'.alg_options = algScan args) ∧
    (∀ (w : World) (p : ProxParams) (cr : Option CreateCall) (call : ComputeCall),
      gdal_proximity w p = .done cr call → call.options = p.alg_options) := by
  refine ⟨parseLoop_alg, ?_, ?_⟩
  · intro args st' h
    rw [parseArgs] at h
    split at h
    · rename_i st'' hl
      by_cases h1 : st''.src_filename = none
      · simp [h1] at h
      · by_cases h2 : st''.dst_filename = none
        · simp [h1, h2] at h
        · simp [h1, h2] at h
          subst h
          simpa [initialParams] using parseLoop_alg initialParams args st'' hl
    · cases h
    · cases h
    · cases h
  · intro w p cr call h
    rw [gdal_proximity] at h
    repeat' split at h
    all_goals cases h
    all_goals rfl

/-- C2 witness: a concrete command line with two algorithm flags. -/
theorem c2_witness :
    parseArgs initialParams ["in.tif", "out.tif", "-values", "1,2", "-maxdist", "5x"] =
      .ok { pEx with alg_options := ["VALUES=1,2", "MAXDIST=5x"] } ∧
    ({ pEx with alg_options := ["VALUES=1,2", "MAXDIST=5x"] } : ProxParams).alg_options =
      algScan ["in.tif", "out.tif", "-values", "1,2", "-maxdist", "5x"] := by
  refine ⟨by rfl, ?_⟩
  exact c2_alg_option_translation.2.1 ["in.tif", "out.tif", "-values", "1,2", "-maxdist", "5x"]
    { pEx with alg_options := ["VALUES=1,2", "MAXDIST=5x"] } (by rfl)

end GdalProximity

namespace GdalProximity

/-- Both `gdal.ComputeProximity` call sites receive `progFunc quiet`. -/
theorem computeCall_callback (w : World) (p : ProxParams) (cr : Option CreateCall)
    (call : ComputeCall) (h : gdal_proximity w p = .done cr call) :
    call.callback = progFunc p.quiet := by
  rw [gdal_proximity] at h
  repeat' split at h
  all_goals cases h
  all_goals rfl

/-- C7: when the quiet flag is set, `ComputeProximity` is invoked with no
progress callback; otherwise with the terminal progress callback
`gdal.TermProgress_nocb`. -/
theorem c7_quiet_selects_callback (w : World) (p : ProxParams) (cr : Option CreateCall)
    (call : ComputeCall) (h : gdal_proximity w p = .done cr call) :
    (p.quiet = true → call.callback = none) ∧
    (p.quiet = false → call.callback = some Callback.TermProgress_nocb) := by
  rw [computeCall_callback w p cr call h]
  constructor
  · intro hq
    simp [progFunc, hq]
  · intro hq
    simp [progFunc, hq]

/-- C7 witness: concrete quiet and non-quiet runs. -/
theorem c7_witness :
    exCallQuiet.callback = none ∧ exCall.callback = some Callback.TermProgress_nocb := by
  constructor
  · exact (c7_quiet_selects_callback wCreate pExQuiet (some exCC) exCallQuiet (by rfl)).1 (by rfl)
  · exact (c7_quiet_selects_callback wCreate pEx (some exCC) exCall (by rfl)).2 (by rfl)

/-- C3: when the destination cannot be opened as an existing dataset and
the run completes, the destination was created with exactly the source's
`RasterXSize`/`RasterYSize`, one band of the requested pixel type and the
given creation options, and the source's geotransform and projection were
copied onto it before `ComputeProximity` was invoked (the band handed to
the call already carries them). -/
theorem c3_created_destination_matches_source (w : World) (p : ProxParams)
    (src_ds : Dataset) (cr : Option CreateCall) (call : ComputeCall)
    (hopen : w.gdalOpen p.src_filename = some src_ds)
    (hdst : (tryOpenDst w p.dst_filename p.dst_band_n p.driver_name).2 = none)
    (hrun : gdal_proximity w p = .done cr call) :
    ∃ cc, cr = some cc ∧
      cc.filename = p.dst_filename ∧
      cc.xsize = src_ds.rasterXSize ∧
      cc.ysize = src_ds.rasterYSize ∧
      cc.nbands = 1 ∧
      cc.dtype = w.getDataTypeByName p.creation_type ∧
      cc.options = p.creation_options ∧
      call.dstband.ds.geoTransform = src_ds.geoTransform ∧
      call.dstband.ds.projectionRef = src_ds.projectionRef ∧
      call.dstband.n = 1 := by
  rcases ho : w.gdalOpen p.src_filename with _ | sds
  · rw [ho] at hopen
    cases hopen
  · rw [ho] at hopen
    injection hopen with hinj
    subst sds
    simp only [gdal_proximity, ho] at hrun
    rcases hb : getRasterBand src_ds p.src_band_n with _ | srcband
    · simp only [hb] at hrun
      cases hrun
    · simp only [hb] at hrun
      rcases ht : tryOpenDst w p.dst_filename p.dst_band_n p.driver_name with ⟨dn, db⟩
      rw [ht] at hdst
      simp only [] at hdst
      subst hdst
      simp only [ht] at hrun
      rcases hr : resolveDriverName w p.dst_filename dn with _ | d
      · simp only [hr] at hrun
        cases hrun
      · rcases d with s | s
        · simp only [hr] at hrun
          rcases hdb : w.getDriverByName s with _ | u
          · simp only [hdb] at hrun
            cases hrun
          · simp only [hdb] at hrun
            rcases hc : w.create p.dst_filename src_ds.rasterXSize src_ds.rasterYSize 1
                (w.getDataTypeByName p.creation_type) p.creation_options with _ | ds0
            · simp only [hc] at hrun
              cases hrun
            · simp only [hc] at hrun
              rcases hb2 : getRasterBand (copyGeoref src_ds ds0) 1 with _ | dstband
              · simp only [hb2] at hrun
                cases hrun
              · simp only [hb2] at hrun
                rw [getRasterBand] at hb2
                split at hb2
                · cases hb2
                  cases hrun
                  exact ⟨_, rfl, rfl, rfl, rfl, rfl, rfl, rfl, rfl, rfl, rfl⟩
                · cases hb2
        · simp only [hr] at hrun
          cases hrun

end GdalProximity

namespace GdalProximity

/-- C3 witness: a concrete run that creates the destination. -/
theorem c3_witness :
    ∃ cc, (some exCC : Option CreateCall) = some cc ∧
      cc.filename = pEx.dst_filename ∧
      cc.xsize = exSrcDs.rasterXSize ∧
      cc.ysize = exSrcDs.rasterYSize ∧
      cc.nbands = 1 ∧
      cc.dtype = wCreate.getDataTypeByName pEx.creation_type ∧
      cc.options = pEx.creation_options ∧
      exCall.dstband.ds.geoTransform = exSrcDs.geoTransform ∧
      exCall.dstband.ds.projectionRef = exSrcDs.projectionRef ∧
      exCall.dstband.n = 1 := by
  exact c3_created_destination_matches_source wCreate pEx exSrcDs (some exCC) exCall
    (by rfl) (by rfl) (by rfl)

/-- C1: `main` exits with 0 when the run completes, returns 1 when
`gdal.Open` yields no dataset for the source, and returns the usage code 2
on each usage error: missing `<srcfile>`, missing `<dstfile>`, an
unrecognized option beginning with `-`, and a third positional argument. -/
theorem c1_exit_codes :
    (∀ (w : World) (argv argv2 : List String) (st : ProxParams) (cr : Option CreateCall)
      (call : ComputeCall),
      w.generalCmdLine argv = some argv2 →
      parseArgs initialParams (argv2.drop 1) = .ok st →
      gdal_proximity w st = .done cr call →
      exitCode (main w argv) = some 0) ∧
    (∀ (w : World) (argv argv2 : List String) (st : ProxParams),
      w.generalCmdLine argv = some argv2 →
      parseArgs initialParams (argv2.drop 1) = .ok st →
      w.gdalOpen st.src_filename = none →
      exitCode (main w argv) = some 1) ∧
    (∀ (w : World) (argv argv2 : List String) (c : ℤ),
      w.generalCmdLine argv = some argv2 →
      parseArgs initialParams (argv2.drop 1) = .early c →
      exitCode (main w argv) = some c) ∧
    (∀ (st : ProxParams) (args : List String) (st' : ProxParams),
      parseLoop st args = .fin st' → st'.src_filename = none →
      parseArgs st args = .early 2) ∧
    (∀ (st : ProxParams) (args : List String) (st' : ProxParams) (s : String),
      parseLoop st args = .fin st' → st'.src_filename = some s → st'.dst_filename = none →
      parseArgs st args = .early 2) ∧
    (∀ (st : ProxParams) (arg : String) (rest : List String),
      arg ∉ recognizedArgs → arg.toList.headD ' ' = '-' →
      parseLoop st (arg :: rest) = .early 2) ∧
    (∀ (st : ProxParams) (arg : String) (rest : List String) (s d : String),
      arg ∉ recognizedArgs → arg ≠ "" → arg.toList.headD ' ' ≠ '-' →
      st.src_filename = some s → st.dst_filename = some d →
      parseLoop st (arg :: rest) = .early 2) := by
  refine ⟨?_, ?_, ?_, ?_, ?_, ?_, ?_⟩
  · intro w argv argv2 st cr call hw hp hrun
    simp only [List.drop_one] at hp
    simp [main, hw, hp, hrun, exitCode]
  · intro w argv argv2 st hw hp hopen
    simp only [List.drop_one] at hp
    simp [main, hw, hp, gdal_proximity, hopen, exitCode]
  · intro w argv argv2 c hw hp
    simp only [List.drop_one] at hp
    simp [main, hw, hp, exitCode]
  · intro st args st' hl hsrc
    simp [parseArgs, hl, hsrc, Usage]
  · intro st args st' s hl hsrc hdst
    simp [parseArgs, hl, hsrc, hdst, Usage]
  · intro st arg rest hmem hhead
    have harg : arg ≠ "" := by
      intro h
      subst h
      simp at hhead
    simp only [recognizedArgs, List.mem_cons, List.not_mem_nil, or_false, not_or] at hmem
    obtain ⟨h1, h2, h3, h4, h5, h6, h7, h8, h9, h10, h11, h12, h13, h14, h15⟩ := hmem
    have hhead' : arg.data.head?.getD ' ' = '-' := by simpa using hhead
    rw [parseLoop.eq_def]
    simp [h1, h2, h3, h4, h5, h6, h7, h8, h9, h10, h11, h12, h13, h14, h15, harg, hhead', Usage]
  · intro st arg rest s d hmem harg hhead hsrc hdst
    simp only [recognizedArgs, List.mem_cons, List.not_mem_nil, or_false, not_or] at hmem
    obtain ⟨h1, h2, h3, h4, h5, h6, h7, h8, h9, h10, h11, h12, h13, h14, h15⟩ := hmem
    have hhead' : ¬arg.data.head?.getD ' ' = '-' := by simpa using hhead
    rw [parseLoop.eq_def]
    simp [h1, h2, h3, h4, h5, h6, h7, h8, h9, h10, h11, h12, h13, h14, h15, harg, hhead',
      hsrc, hdst, Usage]

/-- C1 witness: concrete runs exercising exit codes 0, 1 and 2. -/
theorem c1_witness :
    exitCode (main wCreate ["gdal_proximity", "in.tif", "out.tif"]) = some 0 ∧
    exitCode (main wOpenFail ["gdal_proximity", "in.tif", "out.tif"]) = some 1 ∧
    exitCode (main wCreate ["gdal_proximity", "in.tif"]) = some 2 := by
  refine ⟨?_, ?_, ?_⟩
  · exact c1_exit_codes.1 wCreate ["gdal_proximity", "in.tif", "out.tif"]
      ["gdal_proximity", "in.tif", "out.tif"] pEx (some exCC) exCall (by rfl) (by rfl) (by rfl)
  · exact c1_exit_codes.2.1 wOpenFail ["gdal_proximity", "in.tif", "out.tif"]
      ["gdal_proximity", "in.tif", "out.tif"] pEx (by rfl) (by rfl) (by rfl)
  · exact c1_exit_codes.2.2.1 wCreate ["gdal_proximity", "in.tif"]
      ["gdal_proximity", "in.tif"] 2 (by rfl) (by rfl)

end GdalProximity

namespace GdalProximity

/-- If the parse loop consumes a prefix without exiting, a trailing
value-taking flag makes it read `argv[i+1]` past the end: `IndexError`. -/
theorem parseLoop_trailing_flag :
    ∀ (st : ProxParams) (pre : List String) (st' : ProxParams) (f : String),
      f ∈ valueFlags → parseLoop st pre = .fin st' →
      parseLoop st (pre ++ [f]) = .indexError := by
  intro st pre
  induction st, pre using parseLoop.induct <;> intro st' f hf h <;>
    (try (obtain rfl | rfl := ‹_ = "-of" ∨ _ = "-f"›)) <;>
    (try (obtain rfl | rfl := ‹_ = "-q" ∨ _ = "-quiet"›)) <;>
    first
      | (simp only [List.nil_append]
         simp only [valueFlags, List.mem_cons, List.not_mem_nil, or_false] at hf
         rcases hf with rfl|rfl|rfl|rfl|rfl|rfl|rfl|rfl|rfl|rfl|rfl|rfl <;> rfl)
      | (rw [parseLoop.eq_def] at h
         simp only [List.cons_append]
         rw [parseLoop.eq_def]
         simp_all [Usage])

/-- C10 counterexample: a command line ending in the value-taking flag
`-of` on which `main` returns 0 (the earlier `--help` ends parsing), not an
out-of-bounds access. -/
theorem c10_counterexample :
    main wCreate ["gdal_proximity", "--help", "-of"] = .ret (some 0) ∧
    MainRes.ret (some 0) ≠ MainRes.pyError := by
  refine ⟨by rfl, ?_⟩
  intro h
  cases h

/-- C10 (amended): for every command line whose final argument is a
value-taking flag with no value after it, if the parse loop reaches that
final flag (no earlier `--help`, unrecognized option or third positional
argument ends parsing first), `main` raises an uncaught `IndexError`
instead of returning the usage exit code 2. -/
theorem c10_trailing_flag_index_error (st : ProxParams) (pre : List String)
    (st' : ProxParams) (f : String)
    (hf : f ∈ valueFlags) (hpre : parseLoop st pre = .fin st') :
    parseLoop st (pre ++ [f]) = .indexError ∧
    (∀ (w : World) (argv : List String) (prog : String),
      st = initialParams →
      w.generalCmdLine argv = some (prog :: (pre ++ [f])) →
      main w argv = .pyError) := by
  have hidx := parseLoop_trailing_flag st pre st' f hf hpre
  refine ⟨hidx, ?_⟩
  intro w argv prog hst hw
  subst hst
  simp [main, hw, parseArgs, hidx]

/-- C10 witness: `gdal_proximity a b -values` raises `IndexError`. -/
theorem c10_witness :
    parseLoop initialParams (["a", "b"] ++ ["-values"]) = .indexError ∧
    main wCreate ["gdal_proximity", "a", "b", "-values"] = .pyError := by
  have h := c10_trailing_flag_index_error initialParams ["a", "b"]
    { initialParams with src_filename := some "a", dst_filename := some "b" }
    "-values" (by decide) (by rfl)
  exact ⟨h.1, h.2 wCreate ["gdal_proximity", "a", "b", "-values"] "gdal_proximity"
    rfl (by rfl)⟩

end GdalProximity

namespace Engine

theorem listMin_cons (c : ℕ) (t : List ℕ) :
    listMin (c :: t) =
      match listMin t with
      | none => some c
      | some m => some (min c m) := by
  rw [listMin, List.foldr_cons]
  rfl

theorem listMin_le_of_mem : ∀ (l : List ℕ) (a : ℕ), a ∈ l →
    ∃ m, listMin l = some m ∧ m ≤ a := by
  intro l
  induction l with
  | nil => intro a ha; cases ha
  | cons c t ih =>
    intro a ha
    rw [listMin_cons]
    rcases List.mem_cons.mp ha with rfl | hat
    · rcases ht : listMin t with _ | m
      · exact ⟨a, rfl, le_refl a⟩
      · exact ⟨min a m, rfl, Nat.min_le_left a m⟩
    · obtain ⟨m, hm, hle⟩ := ih a hat
      rw [hm]
      exact ⟨min c m, rfl, le_trans (Nat.min_le_right c m) hle⟩

theorem mem_sources (b : InputBand) (o : AlgOpts) (x y : ℕ)
    (hx : x < b.width) (hy : y < b.height)
    (hs : isSource b o (cellVal b x y) = true) : (x, y) ∈ sources b o := by
  simp only [sources, List.mem_flatMap, List.mem_filterMap, List.mem_range]
  exact ⟨y, hy, x, hx, by simp [hs]⟩

theorem length_setCell (g : Grid) (a bx : ℕ) (v : ℤ) :
    (setCell g a bx v).length = g.length := by
  simp [setCell]

theorem getD_setCell (g : Grid) (a bx : ℕ) (v : ℤ) (y : ℕ) :
    (setCell g a bx v).getD y [] =
      if a = y ∧ a < g.length then (g.getD a []).set bx v else g.getD y [] := by
  simp only [setCell, List.getD_eq_getElem?_getD, List.getElem?_set]
  by_cases h1 : a = y
  · subst h1
    by_cases h2 : a < g.length
    · simp [h2]
    · simp [h2, List.getElem?_eq_none (Nat.le_of_not_lt h2)]
  · simp [h1]

theorem rowlen_setCell (g : Grid) (a bx : ℕ) (v : ℤ) (y : ℕ) :
    ((setCell g a bx v).getD y []).length = (g.getD y []).length := by
  rw [getD_setCell]
  by_cases h : a = y ∧ a < g.length
  · rw [if_pos h, List.length_set, h.1]
  · rw [if_neg h]

theorem cellOf_setCell (g : Grid) (a bx : ℕ) (v : ℤ) (y x : ℕ) :
    cellOf (setCell g a bx v) y x =
      if a = y ∧ bx = x ∧ a < g.length ∧ bx < (g.getD a []).length then v
      else cellOf g y x := by
  rw [cellOf, getD_setCell, cellOf]
  by_cases h1 : a = y ∧ a < g.length
  · rw [if_pos h1]
    obtain ⟨rfl, h2⟩ := h1
    by_cases h3 : bx = x
    · subst h3
      by_cases h4 : bx < (g.getD a []).length
      · rw [if_pos ⟨rfl, rfl, h2, h4⟩]
        rw [List.getD_eq_getElem?_getD, List.getElem?_set, if_pos rfl, if_pos h4]
        rfl
      · rw [if_neg (fun hc => h4 hc.2.2.2)]
        rw [List.getD_eq_getElem?_getD, List.getElem?_set, if_pos rfl, if_neg h4,
          List.getD_eq_getElem?_getD, List.getElem?_eq_none (Nat.le_of_not_lt h4)]
    · rw [if_neg (fun hc => h3 hc.2.1)]
      simp only [List.getD_eq_getElem?_getD, List.getElem?_set, if_neg h3]
  · rw [if_neg h1, if_neg (fun hc => h1 ⟨hc.1, hc.2.2.1⟩)]

end Engine

namespace Engine

theorem foldl_step_length (step : Grid → ℕ × ℕ → Grid) (f : ℕ → ℕ → ℤ)
    (hstep : ∀ g p, step g p = setCell g p.1 p.2 (f p.1 p.2)) :
    ∀ (ps : List (ℕ × ℕ)) (g : Grid), (ps.foldl step g).length = g.length := by
  intro ps
  induction ps with
  | nil => intro g; rfl
  | cons p t ih =>
    intro g
    rw [List.foldl_cons, hstep, ih, length_setCell]

theorem foldl_step_rowlen (step : Grid → ℕ × ℕ → Grid) (f : ℕ → ℕ → ℤ)
    (hstep : ∀ g p, step g p = setCell g p.1 p.2 (f p.1 p.2)) :
    ∀ (ps : List (ℕ × ℕ)) (g : Grid) (y : ℕ),
      ((ps.foldl step g).getD y []).length = (g.getD y []).length := by
  intro ps
  induction ps with
  | nil => intro g y; rfl
  | cons p t ih =>
    intro g y
    rw [List.foldl_cons, hstep, ih, rowlen_setCell]

theorem foldl_step_cellOf (step : Grid → ℕ × ℕ → Grid) (f : ℕ → ℕ → ℤ)
    (hstep : ∀ g p, step g p = setCell g p.1 p.2 (f p.1 p.2)) :
    ∀ (ps : List (ℕ × ℕ)) (g : Grid),
      (∀ p ∈ ps, p.1 < g.length ∧ p.2 < (g.getD p.1 []).length) →
      ∀ y x, cellOf (ps.foldl step g) y x =
        if (y, x) ∈ ps then f y x else cellOf g y x := by
  intro ps
  induction ps with
  | nil =>
    intro g _ y x
    simp
  | cons p t ih =>
    intro g hb y x
    rw [List.foldl_cons, hstep]
    obtain ⟨hp1, hp2⟩ := hb p (by simp)
    have hb' : ∀ q ∈ t, q.1 < (setCell g p.1 p.2 (f p.1 p.2)).length ∧
        q.2 < ((setCell g p.1 p.2 (f p.1 p.2)).getD q.1 []).length := by
      intro q hq
      obtain ⟨hq1, hq2⟩ := hb q (List.mem_cons_of_mem p hq)
      rw [length_setCell, rowlen_setCell]
      exact ⟨hq1, hq2⟩
    rw [ih _ hb']
    by_cases hmem : (y, x) ∈ t
    · rw [if_pos hmem, if_pos (List.mem_cons_of_mem p hmem)]
    · rw [if_neg hmem, cellOf_setCell]
      rcases p with ⟨a, bx⟩
      by_cases heq : a = y ∧ bx = x
      · obtain ⟨rfl, rfl⟩ := heq
        rw [if_pos ⟨rfl, rfl, hp1, hp2⟩, if_pos (List.mem_cons_self _ _)]
      · rw [if_neg (fun hc => heq ⟨hc.1, hc.2.1⟩), if_neg ?_]
        intro hc
        rcases List.mem_cons.mp hc with hc1 | hc2
        · exact heq (by cases hc1; exact ⟨rfl, rfl⟩)
        · exact hmem hc2

theorem mem_allPairs (h w y x : ℕ) : (y, x) ∈ allPairs h w ↔ y < h ∧ x < w := by
  simp only [allPairs, List.mem_flatMap, List.mem_map, List.mem_range]
  constructor
  · rintro ⟨a, ha, c, hc, heq⟩
    cases heq
    exact ⟨ha, hc⟩
  · rintro ⟨hy, hx⟩
    exact ⟨y, hy, x, hx, rfl⟩

end Engine

namespace Engine

theorem getD_of_lt {α : Type _} (l : List α) (d : α) (y : ℕ) (hy : y < l.length) :
    l.getD y d = l[y] := by
  rw [List.getD_eq_getElem?_getD, List.getElem?_eq_getElem hy]
  rfl

/-- Folding one definitive write per cell over all cells of a grid of the
right dimensions produces exactly the generated grid, whatever the initial
contents were. -/
theorem foldl_write_eq (step : Grid → ℕ × ℕ → Grid) (f : ℕ → ℕ → ℤ)
    (hstep : ∀ g p, step g p = setCell g p.1 p.2 (f p.1 p.2))
    (H W : ℕ) (g0 : Grid) (hlen : g0.length = H)
    (hrow : ∀ r ∈ g0, r.length = W) :
    (allPairs H W).foldl step g0 =
      (List.range H).map fun i => (List.range W).map fun j => f i j := by
  have hrowD : ∀ y, y < H → (g0.getD y []).length = W := by
    intro y hy
    have hy' : y < g0.length := by rw [hlen]; exact hy
    rw [getD_of_lt g0 [] y hy']
    exact hrow _ (List.getElem_mem hy')
  have hbounds : ∀ p ∈ allPairs H W, p.1 < g0.length ∧ p.2 < (g0.getD p.1 []).length := by
    intro p hp
    rcases p with ⟨y, x⟩
    rw [mem_allPairs] at hp
    exact ⟨by rw [hlen]; exact hp.1, by rw [hrowD y hp.1]; exact hp.2⟩
  apply List.ext_getElem
  · rw [foldl_step_length step f hstep, hlen, List.length_map, List.length_range]
  · intro y hy1 hy2
    have hyH : y < H := by
      rw [foldl_step_length step f hstep, hlen] at hy1
      exact hy1
    have hmk : ((List.range H).map fun i => (List.range W).map fun j => f i j)[y] =
        (List.range W).map fun j => f y j := by
      rw [List.getElem_map, List.getElem_range]
    rw [hmk]
    apply List.ext_getElem
    · rw [List.length_map, List.length_range, ← getD_of_lt _ [] y hy1,
        foldl_step_rowlen step f hstep, hrowD y hyH]
    · intro x hx1 hx2
      have hxW : x < W := by
        rw [List.length_map, List.length_range] at hx2
        exact hx2
      have hcell : ((allPairs H W).foldl step g0)[y][x] =
          cellOf ((allPairs H W).foldl step g0) y x := by
        rw [cellOf, getD_of_lt _ [] y hy1, getD_of_lt _ 0 x hx1]
      rw [hcell, foldl_step_cellOf step f hstep _ _ hbounds y x,
        if_pos ((mem_allPairs H W y x).mpr ⟨hyH, hxW⟩), List.getElem_map, List.getElem_range]

/-- On a well-dimensioned output buffer the engine succeeds and its result
does not depend on the buffer's initial contents. -/
theorem computeProximity_ok (b : InputBand) (o : AlgOpts) (out0 : Grid) (h : dimsOk b out0) :
    computeProximity b o out0 = .ok (mkGrid b o) := by
  rw [computeProximity, if_pos h]
  congr 1
  exact foldl_write_eq _ (fun y x => outCell b o x y) (fun g p => rfl)
    b.height b.width out0 h.1 h.2

theorem cellOf_mkGrid (b : InputBand) (o : AlgOpts) (y x : ℕ)
    (hy : y < b.height) (hx : x < b.width) :
    cellOf (mkGrid b o) y x = outCell b o x y := by
  have h1 : y < (mkGrid b o).length := by
    rw [mkGrid, List.length_map, List.length_range]
    exact hy
  rw [cellOf, getD_of_lt _ [] y h1]
  have h2 : (mkGrid b o)[y] = (List.range b.width).map fun j => outCell b o j y := by
    simp only [mkGrid, List.getElem_map, List.getElem_range]
  rw [h2]
  have h3 : x < ((List.range b.width).map fun j => outCell b o j y).length := by
    rw [List.length_map, List.length_range]
    exact hx
  rw [getD_of_lt _ 0 x h3, List.getElem_map, List.getElem_range]

end Engine

namespace Engine

/-- C6: the engine is deterministic — on well-dimensioned fresh output
buffers the result is the same whatever the buffers held, so two runs on
the same input and options yield bit-identical outputs. -/
theorem c6_engine_deterministic (b : InputBand) (o : AlgOpts) (out0 out0' : Grid)
    (h : dimsOk b out0) (h' : dimsOk b out0') :
    computeProximity b o out0 = computeProximity b o out0' := by
  rw [computeProximity_ok b o out0 h, computeProximity_ok b o out0' h']

/-- C6 witness: two fresh buffers with different initial contents. -/
theorem c6_witness :
    computeProximity exBand exOpts [[7, 7]] = computeProximity exBand exOpts [[0, 0]] :=
  c6_engine_deterministic exBand exOpts [[7, 7]] [[0, 0]] (by decide) (by decide)

/-- C5 (amended): a cell whose input value is a source value receives
output distance 0, provided FIXED_BUF_VAL is not configured, the cell is
not excluded as input no-data under USE_INPUT_NODATA, and MAXDIST (when
set) is non-negative. -/
theorem c5_sources_get_zero (b : InputBand) (o : AlgOpts) (out0 : Grid) (x y : ℕ)
    (hdims : dimsOk b out0) (hx : x < b.width) (hy : y < b.height)
    (hsrc : isSource b o (cellVal b x y) = true)
    (hfb : o.fixedBufVal = none)
    (hmd : ∀ md, o.maxDist = some md → 0 ≤ md) :
    ∃ g, computeProximity b o out0 = .ok g ∧ cellOf g y x = 0 := by
  refine ⟨mkGrid b o, computeProximity_ok b o out0 hdims, ?_⟩
  rw [cellOf_mkGrid b o y x hy hx]
  have hni : ¬(o.useInputNodata = true ∧ b.nodata = some (cellVal b x y)) := by
    intro hc
    rw [isSource, if_pos hc] at hsrc
    cases hsrc
  rw [outCell, if_neg hni]
  have hmem0 : (0 : ℕ) ∈ (sources b o).map fun s => cheb (x, y) s := by
    refine List.mem_map.mpr ⟨(x, y), mem_sources b o x y hx hy hsrc, ?_⟩
    simp [cheb, Nat.dist_self]
  obtain ⟨m, hm, hle⟩ := listMin_le_of_mem _ 0 hmem0
  have hm0 : m = 0 := Nat.le_zero.mp hle
  subst hm0
  rw [show nearestDist b o x y = some 0 from hm]
  have hscale : scale b o 0 = 0 := by
    rw [scale]
    cases o.distUnits <;> simp
  rcases hmax : o.maxDist with _ | md
  · simp [hfb, hscale]
  · have hmd0 := hmd md hmax
    simp [hfb, hscale, not_lt.mpr hmd0]

/-- C5 counterexample: with FIXED_BUF_VAL configured a source cell gets the
buffer value, not 0; with a negative MAXDIST it gets the no-data value; and
under USE_INPUT_NODATA a no-data cell whose value is in VALUES gets the
no-data value. -/
theorem c5_counterexample :
    (cellVal exBand 0 0 ∈ exOpts.values ∧
      computeProximity exBand { exOpts with fixedBufVal := some 5 } [[7, 7]] =
        .ok [[5, 5]] ∧ (5 : ℤ) ≠ 0) ∧
    (computeProximity exBand { exOpts with maxDist := some (-1) } [[7, 7]] =
      .ok [[9, 9]] ∧ (9 : ℤ) ≠ 0) ∧
    (cellVal exBandNodata 0 0 ∈ exOpts.values ∧
      computeProximity exBandNodata { exOpts with useInputNodata := true } [[7]] =
        .ok [[9]]) := by
  refine ⟨⟨?_, ?_, ?_⟩, ⟨?_, ?_⟩, ?_, ?_⟩ <;> first | rfl | decide

/-- C5 witness: without those option features the source cell gets 0. -/
theorem c5_witness :
    ∃ g, computeProximity exBand exOpts [[7, 7]] = .ok g ∧ cellOf g 0 0 = 0 :=
  c5_sources_get_zero exBand exOpts [[7, 7]] 0 0 (by decide) (by decide) (by decide)
    (by decide) (by decide) (by intro md h; cases h)

end Engine
